import Mathlib

/-!
Verification of the intent-detection and disambiguation engine of the
frankyv3 repository (src/actions/api_tools_actions.py and
src/actions/ollama_actions.py, plus the routing guard in src/server/app.py).

The Python matchers work on raw text with `re.search` over small
alternation-of-literal template lists, plus structural extractors for
EVM addresses (0x followed by 40 hex chars), transaction hashes
(0x followed by 64 hex chars), block numbers and timeranges.  Every
regex template used by the matchers is an alternation of literal
phrases, so a `re.search` hit is equivalent to "some expansion of the
alternation occurs as a substring"; each template below is written as a
product of its alternative segments, mirroring the regex text.  The
structural extractors are embedded as leftmost-match scanners.

Python never raises inside the matchers: the only partial operation is
calling `.group(...)` on a possibly-`None` match object, always guarded
by a truthiness test.  The embedding mirrors that idiom through
`groupOpt`, and the matchers return `Except PyExn` so that the
"no exception is ever raised" claim is a statement about the code shape.
-/

namespace Franky

/-- Text is modelled as its list of characters (Python `str`). -/
abbrev Str := List Char

/-- Convenience conversion from a Lean string literal. -/
def str (s : String) : Str := s.data

/-- Python `text.lower()` (ASCII inputs; `Char.toLower` only maps A-Z). -/
def lowerStr (l : Str) : Str := l.map Char.toLower

/-- Is `n` a prefix of `l`?  Executable companion of list prefixing. -/
def isPrefixList : Str → Str → Bool
  | [], _ => true
  | _ :: _, [] => false
  | a :: as, b :: bs => a == b && isPrefixList as bs

/-- Python `n in l` for strings: `n` occurs contiguously inside `l`. -/
def containsSub (n : Str) : Str → Bool
  | [] => isPrefixList n []
  | c :: rest => isPrefixList n (c :: rest) || containsSub n rest

/-- Character class of the regex `[a-fA-F0-9]` (ASCII codes 48-57, 97-102, 65-70). -/
def hexDigit (c : Char) : Bool :=
  decide ((48 ≤ c.toNat ∧ c.toNat ≤ 57) ∨ (97 ≤ c.toNat ∧ c.toNat ≤ 102) ∨
    (65 ≤ c.toNat ∧ c.toNat ≤ 70))

/-- Character class of the regex `\d` (ASCII digits). -/
def isDigitChar (c : Char) : Bool := decide (48 ≤ c.toNat ∧ c.toNat ≤ 57)

/-- Character class of the regex `\w` (ASCII word characters, used by `\b`). -/
def isWordChar (c : Char) : Bool :=
  decide ((48 ≤ c.toNat ∧ c.toNat ≤ 57) ∨ (65 ≤ c.toNat ∧ c.toNat ≤ 90) ∨
    (97 ≤ c.toNat ∧ c.toNat ≤ 122) ∨ c.toNat = 95)

/-- Character class of the regex `\s` (space, tab, newline, return, formfeed, vtab). -/
def isWsChar (c : Char) : Bool :=
  decide (c.toNat = 32 ∨ c.toNat = 9 ∨ c.toNat = 10 ∨ c.toNat = 13 ∨
    c.toNat = 12 ∨ c.toNat = 11)

/-- The lowercase hex alphabet: ASCII digits and a to f. -/
def isLowerHex (c : Char) : Bool :=
  decide ((48 ≤ c.toNat ∧ c.toNat ≤ 57) ∨ (97 ≤ c.toNat ∧ c.toNat ≤ 102))

/-- Expand a regex that is a product of alternation segments into the
list of literal phrases it can match. -/
def phraseProd (segs : List (List String)) : List String :=
  segs.foldr (fun alts acc => alts.flatMap fun a => acc.map fun b => a ++ b) [""]

/-- Python `any(re.search(p, t) for p in pats)` for literal-alternation
patterns: some expanded phrase occurs as a substring. -/
def anyPhrase (pats : List String) (t : Str) : Bool :=
  pats.any fun p => containsSub (str p) t

/-- Python `any(keyword in t for keyword in kws)`. -/
def anyKeyword (kws : List String) (t : Str) : Bool :=
  kws.any fun k => containsSub (str k) t

/-- Python `sum(1 for keyword in kws if keyword in t)`. -/
def countKeywords (kws : List String) (t : Str) : Nat :=
  (kws.filter fun k => containsSub (str k) t).length

/-- The NETWORK_TO_CHAIN_ID dictionary of api_tools_actions.py, in
insertion order (Python dicts preserve it; the matchers iterate keys). -/
def NETWORK_TO_CHAIN_ID : List (String × String) :=
  [("ethereum", "1"), ("eth", "1"), ("mainnet", "1"),
   ("binance", "56"), ("bsc", "56"),
   ("polygon", "137"), ("matic", "137"),
   ("avalanche", "43114"), ("avax", "43114"),
   ("arbitrum", "42161"), ("optimism", "10"), ("base", "8453"),
   ("fantom", "250"), ("ftm", "250"), ("aurora", "1313161554")]

/-- The network-extraction loop shared by the matchers:
`for net in NETWORK_TO_CHAIN_ID: if net.lower() in text.lower(): return net`.
The keys are already lowercase, so `net.lower()` is `net`. -/
def findNetworkName (lower : Str) : Option Str :=
  (NETWORK_TO_CHAIN_ID.find? fun p => containsSub (str p.1) lower).map fun p => str p.1

/-- Python `NETWORK_TO_CHAIN_ID.get(network.lower(), "1")` as used by the
callers in ollama_actions.py and app.py. -/
def chainIdDefault (network : Str) : Str :=
  ((NETWORK_TO_CHAIN_ID.find? fun p => str p.1 == lowerStr network).map
    fun p => str p.2).getD (str "1")

/-- Plain dictionary lookup network alias to chain id. -/
def chainIdOf (network : Str) : Option Str :=
  (NETWORK_TO_CHAIN_ID.find? fun p => str p.1 == network).map fun p => str p.2

/-- The default network string used by every matcher. -/
def ethStr : Str := str "ethereum"

/-! ## Structural extractors

`re.search` finds the leftmost position where the pattern matches; the
scanners below try each start position left to right.  They run on the
ORIGINAL text, exactly as in the Python code (the address, hash and
block-number searches are not lowercased there). -/

/-- Does the address regex (0x then 40 hex chars) match at the head?
Returns the 42 matched characters. -/
def addrAt (l : Str) : Option Str :=
  match l with
  | c1 :: c2 :: rest =>
    if c1 == '0' && c2 == 'x' && (rest.take 40).length == 40 &&
        (rest.take 40).all hexDigit then
      some (c1 :: c2 :: rest.take 40)
    else none
  | _ => none

/-- Leftmost match of the address regex `0x` followed by 40 hex chars. -/
def findAddress : Str → Option Str
  | [] => none
  | c :: rest =>
    match addrAt (c :: rest) with
    | some s => some s
    | none => findAddress rest

/-- Does the hash regex (0x then 64 hex chars) match at the head? -/
def hashAt (l : Str) : Option Str :=
  match l with
  | c1 :: c2 :: rest =>
    if c1 == '0' && c2 == 'x' && (rest.take 64).length == 64 &&
        (rest.take 64).all hexDigit then
      some (c1 :: c2 :: rest.take 64)
    else none
  | _ => none

/-- Leftmost match of the hash regex `0x` followed by 64 hex chars. -/
def findTxHash : Str → Option Str
  | [] => none
  | c :: rest =>
    match hashAt (c :: rest) with
    | some s => some s
    | none => findTxHash rest

/-- Separator part of the block-number regex: whitespace-star then a colon
or equals then whitespace-star, or else whitespace-plus; followed by the
captured digit run (greedy, so maximal).  Backtracking collapses: the
qualifier words and digits never start with whitespace, so each
whitespace run is consumed whole. -/
def trySep (l : Str) : Option Str :=
  match l.dropWhile isWsChar with
  | c :: rest =>
    if c == ':' || c == '=' then
      let ds := (rest.dropWhile isWsChar).takeWhile isDigitChar
      if ds.length == 0 then none else some ds
    else
      if (l.takeWhile isWsChar).length ≥ 1 && isDigitChar c then
        some ((l.dropWhile isWsChar).takeWhile isDigitChar)
      else none
  | [] => none

/-- After the `block`/`blk` keyword: the greedy optional qualifier
(whitespace-plus then one of number, hash-sign, num, no — tried in the
alternation order of the regex) followed by the separator and digits;
if no qualifier alternative lets the rest match, retry without it. -/
def tryQualThenSep (l : Str) : Option Str :=
  let r := l.dropWhile isWsChar
  if (l.takeWhile isWsChar).length ≥ 1 then
    match ["number", "#", "num", "no"].findSome? (fun q =>
        if isPrefixList (str q) r then trySep (r.drop (str q).length) else none) with
    | some ds => some ds
    | none => trySep l
  else trySep l

/-- Does the block-number regex match at the head?  The keyword
alternation tries `block` then `blk`; they cannot both be prefixes. -/
def blockAt (l : Str) : Option Str :=
  if isPrefixList (str "block") l then tryQualThenSep (l.drop 5)
  else if isPrefixList (str "blk") l then tryQualThenSep (l.drop 3)
  else none

/-- Leftmost match of the block-number regex
`(?:block|blk)(?:\s+(?:number|#|num|no))?(?:\s*[:=]\s*|\s+)(\d+)`,
returning capture group 1 (the digits). -/
def findBlockPrimary : Str → Option Str
  | [] => none
  | c :: rest =>
    match blockAt (c :: rest) with
    | some ds => some ds
    | none => findBlockPrimary rest

/-- Leftmost match of the fallback block regex `\b\d{7,}\b` up to the word
boundaries: a maximal digit run of length at least 7 whose neighbours are
not word characters.  `prev` is the character before the current head. -/
def findSimpleFrom (prev : Option Char) : Str → Option Str
  | [] => none
  | c :: rest =>
    if isDigitChar c && (match prev with | none => true | some p => !isWordChar p) then
      let run := c :: rest.takeWhile isDigitChar
      let after := rest.dropWhile isDigitChar
      if run.length ≥ 7 &&
          (match after with | [] => true | a :: _ => !isWordChar a) then
        some run
      else findSimpleFrom (some c) rest
    else findSimpleFrom (some c) rest

/-- Leftmost match of `\b\d{7,}\b`. -/
def findBlockSimple (l : Str) : Option Str := findSimpleFrom none l

/-- The combined block-number extraction of detect_transaction_trace_query:
the specific pattern first, else the simple 7-plus-digit fallback. -/
def blockNumberOf (text : Str) : Option Str :=
  match findBlockPrimary text with
  | some d => some d
  | none => findBlockSimple text

/-! ## Template phrase sets

Each `re` template of the Python matchers is an alternation of literal
phrases; each definition below expands one pattern list, segment by
segment, in the order the alternatives appear in the regex text. -/

/-- gas_patterns of detect_gas_price_query. -/
def gas_patterns : List String :=
  phraseProd [["what's the", "what is the", "current", "check", "get", "show"],
    [" "], ["gas", "gas price", "gas fee"]] ++
  phraseProd [["gas "], ["price", "fee", "cost"]] ++
  phraseProd [["how much "], ["gas", "fee"]] ++
  ["transaction fee", "network fee"]

/-- nft_patterns of detect_nft_holdings_query, except the fifth pattern
which contains a dot-star and is handled by nftDotStar below. -/
def nft_patterns : List String :=
  phraseProd [["what", "which", "show", "get", "fetch", "check"], [" "],
    ["nft", "nfts", "non-fungible token", "non-fungible tokens"]] ++
  phraseProd [["nft", "nfts"], [" "], ["holding", "holdings", "owned", "collection"]] ++
  phraseProd [["owned", "holding"], [" "], ["nft", "nfts"]] ++
  phraseProd [["nft "], ["collection", "portfolio", "gallery"]]

/-- Head phrases of the fifth nft pattern, up to the dot-star. -/
def nftDotStarHeads : List String :=
  phraseProd [["what "], ["nft", "nfts"], [" "], ["does", "do"]]

/-- Tail phrases of the fifth nft pattern, after the dot-star (the regex
has a literal space on each side of the dot-star). -/
def nftDotStarTails : List String := [" have", " own", " hold"]

/-- After a head phrase matched, the dot-star may consume any run of
non-newline characters before a tail phrase starts. -/
def dotStarTail (tails : List String) : Str → Bool
  | [] => tails.any fun p => isPrefixList (str p) []
  | c :: rest =>
    (tails.any fun p => isPrefixList (str p) (c :: rest)) ||
      (c != '\n' && dotStarTail tails rest)

/-- Search for head-phrase, dot-star, tail-phrase (pattern 5 of the nft
matcher: what nfts? followed by does or do, anything, have or own or hold). -/
def dotStarSearch (heads tails : List String) : Str → Bool
  | [] => false
  | c :: rest =>
    (heads.any fun p =>
      isPrefixList (str p) (c :: rest) && dotStarTail tails ((c :: rest).drop (str p).length)) ||
    dotStarSearch heads tails rest

/-- The whole keyword test of detect_nft_holdings_query. -/
def nftHit (lower : Str) : Bool :=
  anyPhrase nft_patterns lower || dotStarSearch nftDotStarHeads nftDotStarTails lower

/-- price_patterns of detect_spot_price_query. -/
def spot_patterns : List String :=
  phraseProd [["what's the", "what is the", "current", "check", "get", "show"],
    [" "], ["spot price", "token price", "price"]] ++
  phraseProd [["price "], ["of", "for"], [" "],
    ["token", "tokens", "whitelisted token", "whitelisted tokens"]] ++
  phraseProd [["token "], ["price", "value"]] ++
  phraseProd [["spot "], ["price", "value"]]

/-- The currency list of detect_spot_price_query. -/
def currencies : List String := ["USD", "INR", "EUR", "GBP", "JPY", "CNY"]

/-- The exclusion list checked first by detect_token_value_query
(token_details_patterns inside that function: only three patterns). -/
def tv_exclusion_patterns : List String :=
  ["token details", "get token details"] ++
  phraseProd [["token", "erc20"], [" "], ["details", "info", "information"]]

/-- token_value_patterns of detect_token_value_query. -/
def token_value_patterns : List String :=
  phraseProd [["what's the", "what is the", "current", "check", "get", "show"],
    [" "], ["value", "price", "worth"], [" of "], ["token", "erc20"]] ++
  phraseProd [["token", "erc20"], [" "], ["value", "price", "worth"]] ++
  phraseProd [["how much is "], ["token", "erc20"], [" worth"]] ++
  phraseProd [["value of "], ["token", "erc20"]] ++
  ["current value", "token value", "token worth"]

/-- value_keywords (fallback and disambiguation list for token value). -/
def value_keywords : List String := ["value", "worth", "price", "cost", "how much"]

/-- token_details_patterns of detect_token_details_query (seven patterns). -/
def token_details_patterns : List String :=
  phraseProd [["what's", "what is", "what are", "tell me about", "show", "get",
      "fetch", "check"], [" "], ["the ", ""], ["token", "erc20"], [" "],
    ["details", "info", "information"]] ++
  phraseProd [["token", "erc20"], [" "], ["details", "info", "information"]] ++
  phraseProd [["details "], ["of", "about", "for"], [" "], ["token", "erc20"]] ++
  phraseProd [["information "], ["on", "about"], [" "], ["token", "erc20"]] ++
  ["token details", "get token details", "detailed information"]

/-- details_keywords (fallback and disambiguation list for token details). -/
def details_keywords : List String :=
  ["details", "info", "information", "stats", "statistics", "data"]

/-- The profit-loss word alternation shared by several profitloss patterns. -/
def plWords : List String :=
  ["profit", "loss", "profitloss", "profit and loss", "profit/loss", "p&l",
   "roi", "return"]

/-- profitloss_patterns of detect_token_profitloss_query. -/
def profitloss_patterns : List String :=
  phraseProd [["what's the", "what is the", "current", "check", "get", "show"],
    [" "], plWords] ++
  phraseProd [["token", "erc20"], [" "], plWords] ++
  phraseProd [["how much "], ["profit", "loss", "return"], [" "], ["for", "from"],
    [" "], ["token", "erc20"]] ++
  phraseProd [plWords, [" "], ["of", "for", "from"], [" "], ["token", "erc20"]] ++
  phraseProd [plWords, [" "], ["information", "data", "stats", "statistics"]]

/-- profitloss_keywords (fallback and disambiguation list for profit-loss). -/
def profitloss_keywords : List String :=
  ["profit", "loss", "profitloss", "roi", "return", "p&l", "gain"]

/-- timerange_patterns of detect_token_profitloss_query, in dict insertion
order, each expanded (the bracket class matches a space or hyphen, and is
optional). -/
def timerange_table : List (List String × String) :=
  [(phraseProd [["1", "one"], ["", " ", "-"], ["day"]], "1day"),
   (phraseProd [["7", "seven"], ["", " ", "-"], ["day"]], "7day"),
   (phraseProd [["30", "thirty"], ["", " ", "-"], ["day"]], "30day"),
   (phraseProd [["90", "ninety"], ["", " ", "-"], ["day"]], "90day"),
   (phraseProd [["180", "one hundred eighty"], ["", " ", "-"], ["day"]], "180day"),
   (phraseProd [["365", "one year"], ["", " ", "-"], ["day"]], "365day"),
   (phraseProd [["all"], ["", " ", "-"], ["time"]], "all")]

/-- First timerange pattern that matches, in table order. -/
def findTimerange (lower : Str) : Option Str :=
  (timerange_table.find? fun e => e.1.any fun p => containsSub (str p) lower).map
    fun e => str e.2

/-- trace_patterns of detect_transaction_trace_query. -/
def trace_patterns : List String :=
  phraseProd [["what's the", "what is the", "get", "fetch", "show", "find"],
    [" "], ["transaction trace", "tx trace", "trace"]] ++
  phraseProd [["transaction", "tx"], [" "], ["trace", "details", "information"]] ++
  phraseProd [["trace "], ["of", "for"], [" "], ["transaction", "tx"]] ++
  phraseProd [["trace", "details"], [" "], ["of", "for", "about"], [" "],
    ["transaction", "tx"]] ++
  phraseProd [["transaction "], ["execution", "call"], [" "], ["trace", "details"]]

/-- history_patterns of detect_transaction_history_query. -/
def history_patterns : List String :=
  phraseProd [["what's", "what is", "what are", "show", "get", "fetch", "check"],
    [" "], ["the ", ""], ["transaction", "tx"], [" "], ["history", "record", "log"]] ++
  phraseProd [["transaction", "tx"], [" "], ["history", "record", "log"]] ++
  phraseProd [["history", "record", "log"], [" "], ["of", "for"], [" "],
    ["transaction", "tx", "wallet", "address"]] ++
  phraseProd [["past", "recent", "previous"], [" "], ["transaction", "tx"]] ++
  phraseProd [["what "], ["transaction", "tx"], [" "], ["has", "have"], [" "],
    ["wallet", "address"]] ++
  phraseProd [["list", "show"], [" "], ["all", "recent"], [" "],
    ["transaction", "tx"]]

/-- history_keywords (fallback list for transaction history). -/
def history_keywords : List String :=
  ["history", "transactions", "tx", "record", "log", "activity"]

/-! ## The eight matchers

Each matcher mirrors one detect function of api_tools_actions.py.  The
only partial Python operation inside them is calling `.group(...)` on a
match object; the conditional-expression idiom
`m.group(0) if m else None` is embedded as `groupOpt`, where the
unguarded call itself (`group0`) fails on a missing match. -/

/-- The Python exceptions that could arise in the matchers. -/
inductive PyExn where
  /-- Calling `.group` on None. -/
  | attributeError
deriving DecidableEq, Repr

deriving instance DecidableEq for Except

/-- Unguarded `m.group(0)`: raises AttributeError when there is no match. -/
def group0 (m : Option Str) : Except PyExn Str :=
  match m with
  | some s => .ok s
  | none => .error .attributeError

/-- The guarded idiom `m.group(0) if m else None`. -/
def groupOpt (m : Option Str) : Except PyExn (Option Str) :=
  if m.isSome then (group0 m).map some else .ok none

/-- detect_gas_price_query: the matched network alias, or none. -/
def detect_gas_price_query (text : Str) : Except PyExn (Option Str) :=
  let lower := lowerStr text
  if !anyPhrase gas_patterns lower then .ok none
  else .ok (some ((findNetworkName lower).getD ethStr))

/-- detect_nft_holdings_query: (wallet_address, network). -/
def detect_nft_holdings_query (text : Str) : Except PyExn (Option Str × Option Str) :=
  let lower := lowerStr text
  if !nftHit lower then .ok (none, none)
  else
    match groupOpt (findAddress text) with
    | .error e => .error e
    | .ok wallet_address =>
      .ok (wallet_address, some ((findNetworkName lower).getD ethStr))

/-- detect_spot_price_query: (currency, network). -/
def detect_spot_price_query (text : Str) : Except PyExn (Option Str × Option Str) :=
  let lower := lowerStr text
  if !anyPhrase spot_patterns lower then .ok (none, none)
  else
    let currency := ((currencies.find? fun c => containsSub (lowerStr (str c)) lower).getD "USD")
    .ok (some (str currency), some ((findNetworkName lower).getD ethStr))

/-- detect_token_value_query: (token_address, network).  The token-details
exclusion check comes first, before any other logic. -/
def detect_token_value_query (text : Str) : Except PyExn (Option Str × Option Str) :=
  let lower := lowerStr text
  if anyPhrase tv_exclusion_patterns lower then .ok (none, none)
  else
    let is_token_value_query := anyPhrase token_value_patterns lower
    let address_match := findAddress text
    if !(is_token_value_query || address_match.isSome) then .ok (none, none)
    else if !is_token_value_query && address_match.isSome &&
        !anyKeyword value_keywords lower then .ok (none, none)
    else
      match groupOpt address_match with
      | .error e => .error e
      | .ok token_address =>
        .ok (token_address, some ((findNetworkName lower).getD ethStr))

/-- detect_token_details_query: (token_address, network). -/
def detect_token_details_query (text : Str) : Except PyExn (Option Str × Option Str) :=
  let lower := lowerStr text
  let is_token_details_query := anyPhrase token_details_patterns lower
  let address_match := findAddress text
  if !(is_token_details_query || address_match.isSome) then .ok (none, none)
  else if !is_token_details_query && address_match.isSome &&
      !anyKeyword details_keywords lower then .ok (none, none)
  else
    match groupOpt address_match with
    | .error e => .error e
    | .ok token_address =>
      .ok (token_address, some ((findNetworkName lower).getD ethStr))

/-- detect_token_profitloss_query: (token_address, network, timerange). -/
def detect_token_profitloss_query (text : Str) :
    Except PyExn (Option Str × Option Str × Option Str) :=
  let lower := lowerStr text
  let is_profitloss_query := anyPhrase profitloss_patterns lower
  let address_match := findAddress text
  if !(is_profitloss_query || address_match.isSome) then .ok (none, none, none)
  else if !is_profitloss_query && address_match.isSome &&
      !anyKeyword profitloss_keywords lower then .ok (none, none, none)
  else
    match groupOpt address_match with
    | .error e => .error e
    | .ok token_address =>
      .ok (token_address, some ((findNetworkName lower).getD ethStr),
        some ((findTimerange lower).getD (str "1day")))

/-- detect_transaction_trace_query: (tx_hash, block_number, network). -/
def detect_transaction_trace_query (text : Str) :
    Except PyExn (Option Str × Option Str × Option Str) :=
  let lower := lowerStr text
  let is_trace_query := anyPhrase trace_patterns lower
  let tx_hash_match := findTxHash text
  if !(is_trace_query || tx_hash_match.isSome) then .ok (none, none, none)
  else
    match groupOpt tx_hash_match with
    | .error e => .error e
    | .ok tx_hash =>
      .ok (tx_hash, blockNumberOf text, some ((findNetworkName lower).getD ethStr))

/-- detect_transaction_history_query: (wallet_address, network). -/
def detect_transaction_history_query (text : Str) :
    Except PyExn (Option Str × Option Str) :=
  let lower := lowerStr text
  let is_history_query := anyPhrase history_patterns lower
  let address_match := findAddress text
  if !(is_history_query || address_match.isSome) then .ok (none, none)
  else if !is_history_query && address_match.isSome &&
      !anyKeyword history_keywords lower then .ok (none, none)
  else
    match groupOpt address_match with
    | .error e => .error e
    | .ok wallet_address =>
      .ok (wallet_address, some ((findNetworkName lower).getD ethStr))

/-! ## Disambiguation and intent selection (ollama_actions.py) -/

/-- The local variables of ollama_chat after the eight detect calls. -/
structure Detections where
  network : Option Str
  nft_wallet_address : Option Str
  nft_network : Option Str
  currency : Option Str
  spot_network : Option Str
  token_address : Option Str
  token_network : Option Str
  details_token_address : Option Str
  details_token_network : Option Str
  profitloss_token_address : Option Str
  profitloss_token_network : Option Str
  profitloss_timerange : Option Str
  tx_hash : Option Str
  block_number : Option Str
  tx_network : Option Str
  wallet_address : Option Str
  history_network : Option Str
deriving DecidableEq, Repr

/-- Disambiguation-keyword scores used by ollama_chat (each keyword
counts once if it occurs in the lowercased input). -/
def valueScore (lower : Str) : Nat := countKeywords value_keywords lower

/-- Details-keyword score. -/
def detailsScore (lower : Str) : Nat := countKeywords details_keywords lower

/-- Profit-loss-keyword score. -/
def profitlossScore (lower : Str) : Nat := countKeywords profitloss_keywords lower

/-- First conflict block of ollama_chat (lines 96-122): token value versus
token details on the same address.  A strictly higher details score clears
the value side; otherwise (including the tie) the details side is cleared. -/
def resolveValueDetails (lower : Str) (d : Detections) : Detections :=
  if d.token_address.isSome ∧ d.details_token_address.isSome ∧
      d.token_address = d.details_token_address then
    if detailsScore lower > valueScore lower then
      { d with token_address := none, token_network := none }
    else if valueScore lower > detailsScore lower then
      { d with details_token_address := none, details_token_network := none }
    else
      { d with details_token_address := none, details_token_network := none }
  else d

/-- Second statement inside the profit-loss conflict block of ollama_chat
(lines 148-162): profit-loss versus details, applied to the state left by
the value-versus-profit-loss statement, so it re-reads a profit-loss
address that may already have been cleared. -/
def resolvePLDetails (lower : Str) (d1 : Detections) : Detections :=
  if d1.details_token_address.isSome ∧
      d1.details_token_address = d1.profitloss_token_address then
    if profitlossScore lower > detailsScore lower then
      { d1 with details_token_address := none, details_token_network := none }
    else
      { d1 with profitloss_token_address := none,
                profitloss_token_network := none, profitloss_timerange := none }
  else d1

/-- The profit-loss conflict block of ollama_chat (lines 124-162):
profit-loss versus value first, then profit-loss versus details on the
updated state. -/
def resolveProfitLoss (lower : Str) (d : Detections) : Detections :=
  if d.profitloss_token_address.isSome then
    resolvePLDetails lower
      (if d.token_address.isSome ∧ d.token_address = d.profitloss_token_address then
        if profitlossScore lower > valueScore lower then
          { d with token_address := none, token_network := none }
        else
          { d with profitloss_token_address := none,
                   profitloss_token_network := none, profitloss_timerange := none }
      else d)
  else d

/-- Run the eight matchers on one input, as ollama_chat does. -/
def runMatchers (text : Str) : Except PyExn Detections :=
  match detect_gas_price_query text with
  | .error e => .error e
  | .ok network =>
  match detect_nft_holdings_query text with
  | .error e => .error e
  | .ok (nft_wallet_address, nft_network) =>
  match detect_spot_price_query text with
  | .error e => .error e
  | .ok (currency, spot_network) =>
  match detect_token_value_query text with
  | .error e => .error e
  | .ok (token_address, token_network) =>
  match detect_token_details_query text with
  | .error e => .error e
  | .ok (details_token_address, details_token_network) =>
  match detect_token_profitloss_query text with
  | .error e => .error e
  | .ok (profitloss_token_address, profitloss_token_network, profitloss_timerange) =>
  match detect_transaction_trace_query text with
  | .error e => .error e
  | .ok (tx_hash, block_number, tx_network) =>
  match detect_transaction_history_query text with
  | .error e => .error e
  | .ok (wallet_address, history_network) =>
    .ok { network, nft_wallet_address, nft_network, currency, spot_network,
          token_address, token_network, details_token_address,
          details_token_network, profitloss_token_address,
          profitloss_token_network, profitloss_timerange, tx_hash,
          block_number, tx_network, wallet_address, history_network }

/-- Matchers plus both conflict blocks, in program order. -/
def detectAndResolve (text : Str) : Except PyExn Detections :=
  match runMatchers text with
  | .error e => .error e
  | .ok d =>
    .ok (resolveProfitLoss (lowerStr text) (resolveValueDetails (lowerStr text) d))

/-- The intent kinds of the selection ladder. -/
inductive Intent where
  | gasPrice | nftHoldings | spotPrice | tokenValue | tokenDetails
  | profitLoss | transactionTrace | transactionHistory
deriving DecidableEq, Repr

/-- The first-match-wins elif ladder of ollama_chat (lines 176 onward),
applied to the post-disambiguation variables; the trace branch requires
both the hash and the block number. -/
def selectIntent (d : Detections) : Option Intent :=
  if d.network.isSome then some .gasPrice
  else if d.nft_wallet_address.isSome then some .nftHoldings
  else if d.currency.isSome then some .spotPrice
  else if d.token_address.isSome then some .tokenValue
  else if d.details_token_address.isSome then some .tokenDetails
  else if d.profitloss_token_address.isSome then some .profitLoss
  else if d.tx_hash.isSome ∧ d.block_number.isSome then some .transactionTrace
  else if d.wallet_address.isSome then some .transactionHistory
  else none

/-- The app.py /ollama/chat route guard for the trace branch
(lines 256-257: run the trace matcher first and forward only when both
the hash and the block number are present). -/
def appRouteTrace (text : Str) : Except PyExn Bool :=
  match detect_transaction_trace_query text with
  | .error e => .error e
  | .ok (tx_hash, block_number, _) => .ok (tx_hash.isSome && block_number.isSome)

/-- The state used by the C1 witness: Token-Value and Profit-Loss both
extracted the address "a", Token-Details did not. -/
def c1WitnessState : Detections :=
  { network := none, nft_wallet_address := none, nft_network := none,
    currency := none, spot_network := none,
    token_address := some (str "a"), token_network := some (str "ethereum"),
    details_token_address := none, details_token_network := none,
    profitloss_token_address := some (str "a"),
    profitloss_token_network := some (str "ethereum"),
    profitloss_timerange := some (str "1day"), tx_hash := none,
    block_number := none, tx_network := none, wallet_address := none,
    history_network := none }

/-! ## Substring lemmas -/

theorem isPrefixList_iff {n l : Str} : isPrefixList n l = true ↔ ∃ t, l = n ++ t := by
  induction n generalizing l with
  | nil => simp [isPrefixList]
  | cons a as ih =>
    cases l with
    | nil => simp [isPrefixList]
    | cons b bs =>
      simp only [isPrefixList, Bool.and_eq_true, beq_iff_eq, ih, List.cons_append,
        List.cons.injEq]
      constructor
      · rintro ⟨rfl, t, rfl⟩; exact ⟨t, rfl, rfl⟩
      · rintro ⟨t, rfl, rfl⟩; exact ⟨rfl, t, rfl⟩

theorem containsSub_iff {n l : Str} : containsSub n l = true ↔ ∃ p q, l = p ++ n ++ q := by
  induction l with
  | nil =>
    simp only [containsSub, isPrefixList_iff]
    constructor
    · rintro ⟨t, ht⟩
      exact ⟨[], t, by simpa using ht⟩
    · rintro ⟨p, q, h⟩
      obtain ⟨h1, h2⟩ := List.append_eq_nil.mp h.symm
      obtain ⟨hp, hn⟩ := List.append_eq_nil.mp h1
      exact ⟨[], by simp [hn]⟩
  | cons c rest ih =>
    simp only [containsSub, Bool.or_eq_true, isPrefixList_iff, ih]
    constructor
    · rintro (⟨t, ht⟩ | ⟨p, q, rfl⟩)
      · exact ⟨[], t, by simpa using ht⟩
      · exact ⟨c :: p, q, rfl⟩
    · rintro ⟨p, q, hpq⟩
      cases p with
      | nil => exact Or.inl ⟨q, by simpa using hpq⟩
      | cons d ds =>
        simp only [List.cons_append, List.cons.injEq] at hpq
        exact Or.inr ⟨ds, q, hpq.2⟩

theorem mem_of_containsSub {n l : Str} {c : Char} (h : containsSub n l = true)
    (hc : c ∈ n) : c ∈ l := by
  obtain ⟨p, q, rfl⟩ := containsSub_iff.mp h
  simp [hc]

theorem containsSub_trans {a b c : Str} (h1 : containsSub a b = true)
    (h2 : containsSub b c = true) : containsSub a c = true := by
  obtain ⟨p, q, rfl⟩ := containsSub_iff.mp h1
  obtain ⟨p', q', rfl⟩ := containsSub_iff.mp h2
  exact containsSub_iff.mpr ⟨p' ++ p, q ++ q', by simp⟩

theorem notSub_of_missing_char {n l : Str} {c : Char} (hc : c ∈ n) (hl : c ∉ l) :
    containsSub n l = false := by
  cases h : containsSub n l with
  | false => rfl
  | true => exact absurd (mem_of_containsSub h hc) hl

theorem containsSub_append_of_prefixSub {n p : Str} (q : Str)
    (h : isPrefixList n p = true) : containsSub n (p ++ q) = true := by
  obtain ⟨t, rfl⟩ := isPrefixList_iff.mp h
  exact containsSub_iff.mpr ⟨[], t ++ q, by simp⟩

/-! ## Shape lemmas for the matchers -/

theorem groupOpt_eq (m : Option Str) : groupOpt m = .ok m := by
  cases m <;> simp [groupOpt, group0, Except.map]

/-- Shared success path of the address-keyed matchers: with an address in
the text and a fallback keyword present, both gates pass whatever the
template flag is. -/
theorem tv_match {t a : Str}
    (hexcl : anyPhrase tv_exclusion_patterns (lowerStr t) = false)
    (ha : findAddress t = some a)
    (hk : anyKeyword value_keywords (lowerStr t) = true) :
    detect_token_value_query t =
      .ok (some a, some ((findNetworkName (lowerStr t)).getD ethStr)) := by
  simp [detect_token_value_query, hexcl, ha, hk, groupOpt_eq]

theorem tv_nomatch {t a : Str}
    (hexcl : anyPhrase tv_exclusion_patterns (lowerStr t) = false)
    (htv : anyPhrase token_value_patterns (lowerStr t) = false)
    (ha : findAddress t = some a)
    (hk : anyKeyword value_keywords (lowerStr t) = false) :
    detect_token_value_query t = .ok (none, none) := by
  simp [detect_token_value_query, hexcl, htv, ha, hk]

theorem tv_excluded {t : Str}
    (hexcl : anyPhrase tv_exclusion_patterns (lowerStr t) = true) :
    detect_token_value_query t = .ok (none, none) := by
  simp [detect_token_value_query, hexcl]

theorem td_match {t a : Str} (ha : findAddress t = some a)
    (hk : anyKeyword details_keywords (lowerStr t) = true) :
    detect_token_details_query t =
      .ok (some a, some ((findNetworkName (lowerStr t)).getD ethStr)) := by
  simp [detect_token_details_query, ha, hk, groupOpt_eq]

theorem td_nomatch {t a : Str}
    (htd : anyPhrase token_details_patterns (lowerStr t) = false)
    (ha : findAddress t = some a)
    (hk : anyKeyword details_keywords (lowerStr t) = false) :
    detect_token_details_query t = .ok (none, none) := by
  simp [detect_token_details_query, htd, ha, hk]

theorem pl_match {t a : Str} (ha : findAddress t = some a)
    (hk : anyKeyword profitloss_keywords (lowerStr t) = true) :
    detect_token_profitloss_query t =
      .ok (some a, some ((findNetworkName (lowerStr t)).getD ethStr),
        some ((findTimerange (lowerStr t)).getD (str "1day"))) := by
  simp [detect_token_profitloss_query, ha, hk, groupOpt_eq]

theorem pl_nomatch {t a : Str}
    (hpl : anyPhrase profitloss_patterns (lowerStr t) = false)
    (ha : findAddress t = some a)
    (hk : anyKeyword profitloss_keywords (lowerStr t) = false) :
    detect_token_profitloss_query t = .ok (none, none, none) := by
  simp [detect_token_profitloss_query, hpl, ha, hk]

theorem hist_match {t a : Str} (ha : findAddress t = some a)
    (hk : anyKeyword history_keywords (lowerStr t) = true) :
    detect_transaction_history_query t =
      .ok (some a, some ((findNetworkName (lowerStr t)).getD ethStr)) := by
  simp [detect_transaction_history_query, ha, hk, groupOpt_eq]

theorem hist_nomatch {t a : Str}
    (hh : anyPhrase history_patterns (lowerStr t) = false)
    (ha : findAddress t = some a)
    (hk : anyKeyword history_keywords (lowerStr t) = false) :
    detect_transaction_history_query t = .ok (none, none) := by
  simp [detect_transaction_history_query, hh, ha, hk]

theorem nft_nomatch {t : Str} (h : nftHit (lowerStr t) = false) :
    detect_nft_holdings_query t = .ok (none, none) := by
  simp [detect_nft_holdings_query, h]

theorem trace_result {t h : Str} (hh : findTxHash t = some h) :
    detect_transaction_trace_query t =
      .ok (some h, blockNumberOf t,
        some ((findNetworkName (lowerStr t)).getD ethStr)) := by
  simp [detect_transaction_trace_query, hh, groupOpt_eq]

/-! ## Character-level lemmas: lowering a hex digit stays in the
lowercase hex alphabet.  Used to show that no network alias or
timerange phrase can occur inside a hex string. -/

theorem toNat_ofNat_small {n : Nat} (h : n < 55296) : (Char.ofNat n).toNat = n := by
  rw [Char.ofNat, dif_pos (Or.inl h)]
  rfl

theorem lowerHex_toLower {c : Char} (h : hexDigit c = true) :
    isLowerHex (Char.toLower c) = true := by
  simp only [hexDigit, decide_eq_true_eq] at h
  simp only [Char.toLower]
  split_ifs with hc
  · have hv : c.toNat + 32 < 55296 := by omega
    simp only [isLowerHex, decide_eq_true_eq, toNat_ofNat_small hv]
    omega
  · simp only [isLowerHex, decide_eq_true_eq]
    omega

theorem not_mem_lowerStr_hex {l : Str} (hall : l.all hexDigit = true) {w : Char}
    (hw : isLowerHex w = false) : w ∉ lowerStr l := by
  intro hmem
  obtain ⟨c, hc, hcw⟩ := List.mem_map.mp hmem
  have := lowerHex_toLower (List.all_eq_true.mp hall c hc)
  rw [hcw, hw] at this
  exact Bool.false_ne_true this

/-! ## Emptiness lemmas for network and timerange extraction -/

theorem any_containsSub_false {pats : List String} {L ws : Str}
    (hw : ∀ p ∈ pats, ∃ w ∈ ws, w ∈ str p)
    (hmiss : ∀ w ∈ ws, w ∉ L) :
    (pats.any fun p => containsSub (str p) L) = false := by
  rw [List.any_eq_false]
  intro p hp
  obtain ⟨w, hws, hwp⟩ := hw p hp
  simp [notSub_of_missing_char hwp (hmiss w hws)]

/-- Each network alias contains a letter that cannot occur in the text. -/
theorem findNetworkName_none {L : Str} {ws : Str}
    (hw : ∀ q ∈ NETWORK_TO_CHAIN_ID, ∃ w ∈ ws, w ∈ str q.1)
    (hmiss : ∀ w ∈ ws, w ∉ L) : findNetworkName L = none := by
  have hfind : NETWORK_TO_CHAIN_ID.find? (fun p => containsSub (str p.1) L) = none := by
    rw [List.find?_eq_none]
    intro q hq
    obtain ⟨w, hws, hwq⟩ := hw q hq
    simp [notSub_of_missing_char hwq (hmiss w hws)]
  simp [findNetworkName, hfind]

/-- Every timerange phrase contains a y or an l. -/
theorem findTimerange_none {L : Str} (hy : 'y' ∉ L) (hl : 'l' ∉ L) :
    findTimerange L = none := by
  have hfind : timerange_table.find? (fun e => e.1.any fun p => containsSub (str p) L)
      = none := by
    rw [List.find?_eq_none]
    intro e he
    have hw : ∀ p ∈ e.1, ∃ w ∈ (['y', 'l'] : Str), w ∈ str p := by
      have : ∀ e2 ∈ timerange_table, ∀ p ∈ e2.1, ∃ w ∈ (['y', 'l'] : Str), w ∈ str p := by
        decide
      exact this e he
    have hmiss : ∀ w ∈ (['y', 'l'] : Str), w ∉ L := by
      intro w hwmem
      rcases List.mem_cons.mp hwmem with rfl | hwmem2
      · exact hy
      · rcases List.mem_cons.mp hwmem2 with rfl | hwmem3
        · exact hl
        · exact absurd hwmem3 (List.not_mem_nil w)
    simp [any_containsSub_false hw hmiss]
  simp [findTimerange, hfind]

/-! ## Leftmost address scanning -/

theorem addrAt_ne {c : Char} (l : Str) (hc : (c == '0') = false) :
    addrAt (c :: l) = none := by
  cases l <;> simp [addrAt, hc]

theorem findAddress_cons_of_ne {c : Char} (l : Str) (hc : (c == '0') = false) :
    findAddress (c :: l) = findAddress l := by
  simp [findAddress, addrAt_ne l hc]

theorem all_take {l : Str} {p : Char → Bool} (n : Nat) (h : l.all p = true) :
    (l.take n).all p = true := by
  rw [List.all_eq_true] at h ⊢
  exact fun c hc => h c (List.take_subset n l hc)

theorem findAddress_0x {h : Str} (hlen : 40 ≤ h.length)
    (hhex : h.all hexDigit = true) :
    findAddress ('0' :: 'x' :: h) = some ('0' :: 'x' :: h.take 40) := by
  have h1 : (h.take 40).length = 40 := by
    rw [List.length_take]
    omega
  have h2 : (h.take 40).all hexDigit = true := all_take 40 hhex
  simp [findAddress, addrAt, h1, h2]

theorem hashAt_ne {c : Char} (l : Str) (hc : (c == '0') = false) :
    hashAt (c :: l) = none := by
  cases l <;> simp [hashAt, hc]

theorem findTxHash_cons_of_ne {c : Char} (l : Str) (hc : (c == '0') = false) :
    findTxHash (c :: l) = findTxHash l := by
  simp [findTxHash, hashAt_ne l hc]

theorem findTxHash_0x {h : Str} (hlen : h.length = 64)
    (hhex : h.all hexDigit = true) :
    findTxHash ('0' :: 'x' :: h) = some ('0' :: 'x' :: h) := by
  have h1 : h.take 64 = h := by
    rw [List.take_of_length_le (by omega)]
  simp [findTxHash, hashAt, h1, hlen, hhex]

/-! ## The matchers never produce an error value -/

theorem gas_ok (t : Str) : ∃ v, detect_gas_price_query t = .ok v := by
  simp only [detect_gas_price_query]
  split_ifs <;> exact ⟨_, rfl⟩

theorem nft_ok (t : Str) : ∃ v, detect_nft_holdings_query t = .ok v := by
  simp only [detect_nft_holdings_query, groupOpt_eq]
  split_ifs <;> exact ⟨_, rfl⟩

theorem spot_ok (t : Str) : ∃ v, detect_spot_price_query t = .ok v := by
  simp only [detect_spot_price_query]
  split_ifs <;> exact ⟨_, rfl⟩

theorem tv_ok (t : Str) : ∃ v, detect_token_value_query t = .ok v := by
  simp only [detect_token_value_query, groupOpt_eq]
  split_ifs <;> exact ⟨_, rfl⟩

theorem td_ok (t : Str) : ∃ v, detect_token_details_query t = .ok v := by
  simp only [detect_token_details_query, groupOpt_eq]
  split_ifs <;> exact ⟨_, rfl⟩

theorem pl_ok (t : Str) : ∃ v, detect_token_profitloss_query t = .ok v := by
  simp only [detect_token_profitloss_query, groupOpt_eq]
  split_ifs <;> exact ⟨_, rfl⟩

theorem trace_ok (t : Str) : ∃ v, detect_transaction_trace_query t = .ok v := by
  simp only [detect_transaction_trace_query, groupOpt_eq]
  split_ifs <;> exact ⟨_, rfl⟩

theorem hist_ok (t : Str) : ∃ v, detect_transaction_history_query t = .ok v := by
  simp only [detect_transaction_history_query, groupOpt_eq]
  split_ifs <;> exact ⟨_, rfl⟩

theorem runMatchers_ok (t : Str) : ∃ d, runMatchers t = .ok d := by
  obtain ⟨v1, e1⟩ := gas_ok t
  obtain ⟨⟨a2, b2⟩, e2⟩ := nft_ok t
  obtain ⟨⟨a3, b3⟩, e3⟩ := spot_ok t
  obtain ⟨⟨a4, b4⟩, e4⟩ := tv_ok t
  obtain ⟨⟨a5, b5⟩, e5⟩ := td_ok t
  obtain ⟨⟨a6, b6, c6⟩, e6⟩ := pl_ok t
  obtain ⟨⟨a7, b7, c7⟩, e7⟩ := trace_ok t
  obtain ⟨⟨a8, b8⟩, e8⟩ := hist_ok t
  exact ⟨_, by rw [runMatchers, e1, e2, e3, e4, e5, e6, e7, e8]⟩

theorem detectAndResolve_ok (t : Str) : ∃ d, detectAndResolve t = .ok d := by
  obtain ⟨d, e⟩ := runMatchers_ok t
  exact ⟨_, by rw [detectAndResolve, e]⟩

/-! ## Claim theorems -/

/-- Claim C8 (confirmed): the network-alias table holds exactly the pairs
ethereum/eth/mainnet to 1, binance/bsc to 56, polygon/matic to 137,
avalanche/avax to 43114, arbitrum to 42161, optimism to 10, base to 8453,
fantom/ftm to 250, aurora to 1313161554, and no others; a gas-price query
naming polygon yields network polygon, whose caller-side lookup gives
chain id 137, and the base alias maps to 8453. -/
theorem c8_network_table :
    NETWORK_TO_CHAIN_ID =
      [("ethereum", "1"), ("eth", "1"), ("mainnet", "1"), ("binance", "56"),
       ("bsc", "56"), ("polygon", "137"), ("matic", "137"),
       ("avalanche", "43114"), ("avax", "43114"), ("arbitrum", "42161"),
       ("optimism", "10"), ("base", "8453"), ("fantom", "250"),
       ("ftm", "250"), ("aurora", "1313161554")] ∧
    detect_gas_price_query (str "what's the gas price on polygon?") =
      .ok (some (str "polygon")) ∧
    chainIdDefault (str "polygon") = str "137" ∧
    chainIdOf (str "base") = some (str "8453") ∧
    chainIdOf (str "polygon") = some (str "137") :=
  ⟨rfl, by decide, by decide, by decide, by decide⟩

/-- Claim C3 counterexample: the input below matches the Token-Details
template phrase "detailed information" (seventh entry of
token_details_patterns), yet the Token-Value matcher extracts the
address rather than returning no-match, because the exclusion list
inside detect_token_value_query holds only three of the seven
Token-Details templates. -/
theorem c3_counterexample :
    anyPhrase token_details_patterns (lowerStr
      (str "detailed information for 0xaaaaaaaaaaaaaaaaaaaaaaaaaaaaaaaaaaaaaaaa worth")) = true ∧
    detect_token_value_query
        (str "detailed information for 0xaaaaaaaaaaaaaaaaaaaaaaaaaaaaaaaaaaaaaaaa worth") =
      .ok (some (str "0xaaaaaaaaaaaaaaaaaaaaaaaaaaaaaaaaaaaaaaaa"), some (str "ethereum")) ∧
    some (str "0xaaaaaaaaaaaaaaaaaaaaaaaaaaaaaaaaaaaaaaaa") ≠ (none : Option Str) :=
  ⟨by decide, by decide, by decide⟩

/-- Claim C3 amended: for every input matching one of the THREE exclusion
patterns of detect_token_value_query (token details, get token details,
token-or-erc20 followed by details-or-info-or-information) — a strict
subset of the Token-Details templates — the Token-Value matcher returns
no-match with no address and no network, this check being evaluated
before any other Token-Value logic; inputs that only match other
Token-Details templates (such as "detailed information") can still fire
Token-Value. -/
theorem c3_amended (t : Str)
    (hexcl : anyPhrase tv_exclusion_patterns (lowerStr t) = true) :
    detect_token_value_query t = .ok (none, none) :=
  tv_excluded hexcl

/-- Witness for C3 amended at a concrete excluded input. -/
theorem c3_amended_witness :
    anyPhrase tv_exclusion_patterns (lowerStr
      (str "token details 0xaaaaaaaaaaaaaaaaaaaaaaaaaaaaaaaaaaaaaaaa value")) = true ∧
    detect_token_value_query
        (str "token details 0xaaaaaaaaaaaaaaaaaaaaaaaaaaaaaaaaaaaaaaaa value") =
      .ok (none, none) :=
  ⟨by decide,
   c3_amended (str "token details 0xaaaaaaaaaaaaaaaaaaaaaaaaaaaaaaaaaaaaaaaa value")
     (by decide)⟩

/-- Claim C10 counterexample: a matching gas query containing "automatic"
need not resolve to matic: the alias scan runs in table insertion order,
so an earlier alias ("eth" here) wins. -/
theorem c10_counterexample :
    containsSub (str "automatic") (lowerStr (str "gas price automatic eth")) = true ∧
    detect_gas_price_query (str "gas price automatic eth") = .ok (some (str "eth")) ∧
    str "eth" ≠ str "matic" :=
  ⟨by decide, by decide, by decide⟩

/-- Claim C10 amended: network-alias extraction is raw substring
containment over the lowercased text scanned in table insertion order,
so an alias inside an unrelated word is picked up: any matching gas
query whose text contains "automatic" and none of the aliases listed
before matic (ethereum, eth, mainnet, binance, bsc, polygon) resolves
the network to matic, whose chain id is 137. -/
theorem c10_amended (t : Str)
    (hgas : anyPhrase gas_patterns (lowerStr t) = true)
    (hauto : containsSub (str "automatic") (lowerStr t) = true)
    (h1 : containsSub (str "ethereum") (lowerStr t) = false)
    (h2 : containsSub (str "eth") (lowerStr t) = false)
    (h3 : containsSub (str "mainnet") (lowerStr t) = false)
    (h4 : containsSub (str "binance") (lowerStr t) = false)
    (h5 : containsSub (str "bsc") (lowerStr t) = false)
    (h6 : containsSub (str "polygon") (lowerStr t) = false) :
    detect_gas_price_query t = .ok (some (str "matic")) ∧
    chainIdDefault (str "matic") = str "137" := by
  have hm : containsSub (str "matic") (lowerStr t) = true :=
    containsSub_trans (by decide) hauto
  refine ⟨?_, by decide⟩
  simp [detect_gas_price_query, hgas, findNetworkName, NETWORK_TO_CHAIN_ID,
    List.find?, h1, h2, h3, h4, h5, h6, hm]

/-- Witness for C10 amended. -/
theorem c10_amended_witness :
    detect_gas_price_query (str "gas fee automatically") = .ok (some (str "matic")) ∧
    chainIdDefault (str "matic") = str "137" :=
  c10_amended (str "gas fee automatically") (by decide) (by decide) (by decide)
    (by decide) (by decide) (by decide) (by decide) (by decide)

/-- Claim C2 counterexample: a bare 64-hex-char hash with no intent
keyword at all does NOT yield no-match: the transaction-trace matcher
has no looser-keyword gate and reports the hash as its subject. -/
theorem c2_counterexample :
    anyPhrase trace_patterns (lowerStr
      (str "0xaaaaaaaaaaaaaaaaaaaaaaaaaaaaaaaaaaaaaaaaaaaaaaaaaaaaaaaaaaaaaaaa")) = false ∧
    detect_transaction_trace_query
        (str "0xaaaaaaaaaaaaaaaaaaaaaaaaaaaaaaaaaaaaaaaaaaaaaaaaaaaaaaaaaaaaaaaa") =
      .ok (some (str "0xaaaaaaaaaaaaaaaaaaaaaaaaaaaaaaaaaaaaaaaaaaaaaaaaaaaaaaaaaaaaaaaa"),
        none, some (str "ethereum")) ∧
    some (str "0xaaaaaaaaaaaaaaaaaaaaaaaaaaaaaaaaaaaaaaaaaaaaaaaaaaaaaaaaaaaaaaaa")
      ≠ (none : Option Str) :=
  ⟨by decide, by decide, by decide⟩

/-- Claim C2 amended: the fallback-inference rule (template set fails,
structurally valid address present, match reported iff a looser
intent-specific keyword appears) holds for the token-value (when its
token-details exclusion is absent), token-details, profit-loss and
transaction-history matchers; the NFT matcher has no fallback at all
(no template hit means no-match even with an address), and the trace
matcher matches a bare hash with no keyword whatsoever. -/
theorem c2_amended (t : Str) :
    (∀ a, anyPhrase tv_exclusion_patterns (lowerStr t) = false →
      anyPhrase token_value_patterns (lowerStr t) = false →
      findAddress t = some a →
      (anyKeyword value_keywords (lowerStr t) = true →
        detect_token_value_query t =
          .ok (some a, some ((findNetworkName (lowerStr t)).getD ethStr))) ∧
      (anyKeyword value_keywords (lowerStr t) = false →
        detect_token_value_query t = .ok (none, none))) ∧
    (∀ a, anyPhrase token_details_patterns (lowerStr t) = false →
      findAddress t = some a →
      (anyKeyword details_keywords (lowerStr t) = true →
        detect_token_details_query t =
          .ok (some a, some ((findNetworkName (lowerStr t)).getD ethStr))) ∧
      (anyKeyword details_keywords (lowerStr t) = false →
        detect_token_details_query t = .ok (none, none))) ∧
    (∀ a, anyPhrase profitloss_patterns (lowerStr t) = false →
      findAddress t = some a →
      (anyKeyword profitloss_keywords (lowerStr t) = true →
        detect_token_profitloss_query t =
          .ok (some a, some ((findNetworkName (lowerStr t)).getD ethStr),
            some ((findTimerange (lowerStr t)).getD (str "1day")))) ∧
      (anyKeyword profitloss_keywords (lowerStr t) = false →
        detect_token_profitloss_query t = .ok (none, none, none))) ∧
    (∀ a, anyPhrase history_patterns (lowerStr t) = false →
      findAddress t = some a →
      (anyKeyword history_keywords (lowerStr t) = true →
        detect_transaction_history_query t =
          .ok (some a, some ((findNetworkName (lowerStr t)).getD ethStr))) ∧
      (anyKeyword history_keywords (lowerStr t) = false →
        detect_transaction_history_query t = .ok (none, none))) ∧
    (nftHit (lowerStr t) = false → detect_nft_holdings_query t = .ok (none, none)) ∧
    (∀ h, anyPhrase trace_patterns (lowerStr t) = false → findTxHash t = some h →
      detect_transaction_trace_query t =
        .ok (some h, blockNumberOf t,
          some ((findNetworkName (lowerStr t)).getD ethStr))) := by
  refine ⟨?_, ?_, ?_, ?_, ?_, ?_⟩
  · exact fun a hexcl _ ha =>
      ⟨fun hk => tv_match hexcl ha hk, fun hk => tv_nomatch hexcl ‹_› ha hk⟩
  · exact fun a htd ha =>
      ⟨fun hk => td_match ha hk, fun hk => td_nomatch htd ha hk⟩
  · exact fun a hpl ha =>
      ⟨fun hk => pl_match ha hk, fun hk => pl_nomatch hpl ha hk⟩
  · exact fun a hh ha =>
      ⟨fun hk => hist_match ha hk, fun hk => hist_nomatch hh ha hk⟩
  · exact fun h => nft_nomatch h
  · exact fun h _ hh => trace_result hh

/-- Witness for C2 amended: each branch exercised at a concrete input. -/
theorem c2_amended_witness :
    detect_token_value_query (str "0xaaaaaaaaaaaaaaaaaaaaaaaaaaaaaaaaaaaaaaaa worth") =
      .ok (some (str "0xaaaaaaaaaaaaaaaaaaaaaaaaaaaaaaaaaaaaaaaa"), some (str "ethereum")) ∧
    detect_token_value_query (str "0xaaaaaaaaaaaaaaaaaaaaaaaaaaaaaaaaaaaaaaaa zzz") =
      .ok (none, none) ∧
    detect_token_details_query (str "0xaaaaaaaaaaaaaaaaaaaaaaaaaaaaaaaaaaaaaaaa info") =
      .ok (some (str "0xaaaaaaaaaaaaaaaaaaaaaaaaaaaaaaaaaaaaaaaa"), some (str "ethereum")) ∧
    detect_token_details_query (str "0xaaaaaaaaaaaaaaaaaaaaaaaaaaaaaaaaaaaaaaaa zzz") =
      .ok (none, none) ∧
    detect_token_profitloss_query (str "0xaaaaaaaaaaaaaaaaaaaaaaaaaaaaaaaaaaaaaaaa gain") =
      .ok (some (str "0xaaaaaaaaaaaaaaaaaaaaaaaaaaaaaaaaaaaaaaaa"), some (str "ethereum"),
        some (str "1day")) ∧
    detect_token_profitloss_query (str "0xaaaaaaaaaaaaaaaaaaaaaaaaaaaaaaaaaaaaaaaa zzz") =
      .ok (none, none, none) ∧
    detect_transaction_history_query (str "0xaaaaaaaaaaaaaaaaaaaaaaaaaaaaaaaaaaaaaaaa activity") =
      .ok (some (str "0xaaaaaaaaaaaaaaaaaaaaaaaaaaaaaaaaaaaaaaaa"), some (str "ethereum")) ∧
    detect_transaction_history_query (str "0xaaaaaaaaaaaaaaaaaaaaaaaaaaaaaaaaaaaaaaaa zzz") =
      .ok (none, none) ∧
    detect_nft_holdings_query (str "0xaaaaaaaaaaaaaaaaaaaaaaaaaaaaaaaaaaaaaaaa nft zzz") =
      .ok (none, none) ∧
    detect_transaction_trace_query
        (str "0xbbbbbbbbbbbbbbbbbbbbbbbbbbbbbbbbbbbbbbbbbbbbbbbbbbbbbbbbbbbbbbbb") =
      .ok (some (str "0xbbbbbbbbbbbbbbbbbbbbbbbbbbbbbbbbbbbbbbbbbbbbbbbbbbbbbbbbbbbbbbbb"),
        none, some (str "ethereum")) :=
  ⟨(((c2_amended (str "0xaaaaaaaaaaaaaaaaaaaaaaaaaaaaaaaaaaaaaaaa worth")).1
      (str "0xaaaaaaaaaaaaaaaaaaaaaaaaaaaaaaaaaaaaaaaa") (by decide) (by decide)
      (by decide)).1 (by decide)).trans (by decide),
   ((c2_amended (str "0xaaaaaaaaaaaaaaaaaaaaaaaaaaaaaaaaaaaaaaaa zzz")).1
      (str "0xaaaaaaaaaaaaaaaaaaaaaaaaaaaaaaaaaaaaaaaa") (by decide) (by decide)
      (by decide)).2 (by decide),
   (((c2_amended (str "0xaaaaaaaaaaaaaaaaaaaaaaaaaaaaaaaaaaaaaaaa info")).2.1
      (str "0xaaaaaaaaaaaaaaaaaaaaaaaaaaaaaaaaaaaaaaaa") (by decide)
      (by decide)).1 (by decide)).trans (by decide),
   ((c2_amended (str "0xaaaaaaaaaaaaaaaaaaaaaaaaaaaaaaaaaaaaaaaa zzz")).2.1
      (str "0xaaaaaaaaaaaaaaaaaaaaaaaaaaaaaaaaaaaaaaaa") (by decide)
      (by decide)).2 (by decide),
   (((c2_amended (str "0xaaaaaaaaaaaaaaaaaaaaaaaaaaaaaaaaaaaaaaaa gain")).2.2.1
      (str "0xaaaaaaaaaaaaaaaaaaaaaaaaaaaaaaaaaaaaaaaa") (by decide)
      (by decide)).1 (by decide)).trans (by decide),
   ((c2_amended (str "0xaaaaaaaaaaaaaaaaaaaaaaaaaaaaaaaaaaaaaaaa zzz")).2.2.1
      (str "0xaaaaaaaaaaaaaaaaaaaaaaaaaaaaaaaaaaaaaaaa") (by decide)
      (by decide)).2 (by decide),
   (((c2_amended (str "0xaaaaaaaaaaaaaaaaaaaaaaaaaaaaaaaaaaaaaaaa activity")).2.2.2.1
      (str "0xaaaaaaaaaaaaaaaaaaaaaaaaaaaaaaaaaaaaaaaa") (by decide)
      (by decide)).1 (by decide)).trans (by decide),
   ((c2_amended (str "0xaaaaaaaaaaaaaaaaaaaaaaaaaaaaaaaaaaaaaaaa zzz")).2.2.2.1
      (str "0xaaaaaaaaaaaaaaaaaaaaaaaaaaaaaaaaaaaaaaaa") (by decide)
      (by decide)).2 (by decide),
   (c2_amended (str "0xaaaaaaaaaaaaaaaaaaaaaaaaaaaaaaaaaaaaaaaa nft zzz")).2.2.2.2.1
     (by decide),
   ((c2_amended
      (str "0xbbbbbbbbbbbbbbbbbbbbbbbbbbbbbbbbbbbbbbbbbbbbbbbbbbbbbbbbbbbbbbbb")).2.2.2.2.2
      (str "0xbbbbbbbbbbbbbbbbbbbbbbbbbbbbbbbbbbbbbbbbbbbbbbbbbbbbbbbbbbbbbbbb")
      (by decide) (by decide)).trans (by decide)⟩

/-- Claim C5 (confirmed): the trace matcher returns a hash-only partial
result when a hash is present but no block number is found; the
ollama_chat selection ladder forwards a trace intent only when both the
hash and the block number are present; and the app.py route forwards the
trace intent exactly when both are present. -/
theorem c5_trace_hash_only :
    (∀ t h, findTxHash t = some h → blockNumberOf t = none →
      detect_transaction_trace_query t =
        .ok (some h, none, some ((findNetworkName (lowerStr t)).getD ethStr))) ∧
    (∀ d, selectIntent d = some Intent.transactionTrace →
      d.tx_hash.isSome = true ∧ d.block_number.isSome = true) ∧
    (∀ t hsh blk net, detect_transaction_trace_query t = .ok (hsh, blk, net) →
      (appRouteTrace t = .ok true ↔ hsh.isSome = true ∧ blk.isSome = true)) := by
  refine ⟨?_, ?_, ?_⟩
  · intro t h hh hb
    have := trace_result hh
    rwa [hb] at this
  · intro d hsel
    unfold selectIntent at hsel
    split_ifs at hsel with h1 h2 h3 h4 h5 h6 h7 h8 <;> simp_all
  · intro t hsh blk net hdet
    unfold appRouteTrace
    rw [hdet]
    simp [Bool.and_eq_true]

/-- Witness for C5 at a concrete hash-only input and a concrete state. -/
theorem c5_trace_hash_only_witness :
    detect_transaction_trace_query
        (str "trace tx 0xaaaaaaaaaaaaaaaaaaaaaaaaaaaaaaaaaaaaaaaaaaaaaaaaaaaaaaaaaaaaaaaa") =
      .ok (some (str "0xaaaaaaaaaaaaaaaaaaaaaaaaaaaaaaaaaaaaaaaaaaaaaaaaaaaaaaaaaaaaaaaa"),
        none, some (str "ethereum")) ∧
    ((some (str "h") : Option Str).isSome = true ∧
      (some (str "9000000") : Option Str).isSome = true) ∧
    (appRouteTrace
        (str "trace tx 0xaaaaaaaaaaaaaaaaaaaaaaaaaaaaaaaaaaaaaaaaaaaaaaaaaaaaaaaaaaaaaaaa") =
        .ok true ↔
      (some (str "0xaaaaaaaaaaaaaaaaaaaaaaaaaaaaaaaaaaaaaaaaaaaaaaaaaaaaaaaaaaaaaaaa") :
        Option Str).isSome = true ∧ (none : Option Str).isSome = true) :=
  ⟨(c5_trace_hash_only.1
      (str "trace tx 0xaaaaaaaaaaaaaaaaaaaaaaaaaaaaaaaaaaaaaaaaaaaaaaaaaaaaaaaaaaaaaaaa")
      (str "0xaaaaaaaaaaaaaaaaaaaaaaaaaaaaaaaaaaaaaaaaaaaaaaaaaaaaaaaaaaaaaaaa")
      (by decide) (by decide)).trans (by decide),
   c5_trace_hash_only.2.1
     { network := none, nft_wallet_address := none, nft_network := none,
       currency := none, spot_network := none, token_address := none,
       token_network := none, details_token_address := none,
       details_token_network := none, profitloss_token_address := none,
       profitloss_token_network := none, profitloss_timerange := none,
       tx_hash := some (str "h"), block_number := some (str "9000000"),
       tx_network := some (str "ethereum"), wallet_address := none,
       history_network := none } (by decide),
   c5_trace_hash_only.2.2
     (str "trace tx 0xaaaaaaaaaaaaaaaaaaaaaaaaaaaaaaaaaaaaaaaaaaaaaaaaaaaaaaaaaaaaaaaa")
     (some (str "0xaaaaaaaaaaaaaaaaaaaaaaaaaaaaaaaaaaaaaaaaaaaaaaaaaaaaaaaaaaaaaaaa"))
     none (some (str "ethereum")) (by decide)⟩

/-- Claim C6 (confirmed): any text holding a well-formed 40-hex-char
address and the word profit makes the Profit-Loss matcher report a match
with that address as subject; the timerange is 1day when no range phrase
matches, and the 30-days scenario resolves to 30day. -/
theorem c6_profitloss (t a : Str) (ha : findAddress t = some a)
    (hp : containsSub (str "profit") (lowerStr t) = true) :
    detect_token_profitloss_query t =
      .ok (some a, some ((findNetworkName (lowerStr t)).getD ethStr),
        some ((findTimerange (lowerStr t)).getD (str "1day"))) ∧
    (findTimerange (lowerStr t) = none →
      detect_token_profitloss_query t =
        .ok (some a, some ((findNetworkName (lowerStr t)).getD ethStr),
          some (str "1day"))) ∧
    detect_token_profitloss_query
        (str "token profit and loss for 0xaaaaaaaaaaaaaaaaaaaaaaaaaaaaaaaaaaaaaaaa over 30 days") =
      .ok (some (str "0xaaaaaaaaaaaaaaaaaaaaaaaaaaaaaaaaaaaaaaaa"), some (str "ethereum"),
        some (str "30day")) := by
  have hk : anyKeyword profitloss_keywords (lowerStr t) = true := by
    apply List.any_eq_true.mpr
    exact ⟨"profit", by decide, hp⟩
  refine ⟨pl_match ha hk, ?_, by decide⟩
  intro hnone
  have hres := pl_match ha hk
  rwa [hnone] at hres

/-- Witness for C6 at an input with an address, the word profit and no
range phrase. -/
theorem c6_profitloss_witness :
    detect_token_profitloss_query (str "profit 0xbbbbbbbbbbbbbbbbbbbbbbbbbbbbbbbbbbbbbbbb") =
      .ok (some (str "0xbbbbbbbbbbbbbbbbbbbbbbbbbbbbbbbbbbbbbbbb"), some (str "ethereum"),
        some (str "1day")) :=
  ((c6_profitloss (str "profit 0xbbbbbbbbbbbbbbbbbbbbbbbbbbbbbbbbbbbbbbbb")
      (str "0xbbbbbbbbbbbbbbbbbbbbbbbbbbbbbbbbbbbbbbbb") (by decide) (by decide)).2.1
    (by decide)).trans (by decide)

/-- Claim C4 (confirmed): when the Token-Value and Token-Details matchers
extracted the same non-null address and the value and details keyword
scores are exactly equal, the value-versus-details conflict block keeps
the Token-Value result and clears the Token-Details result. -/
theorem c4_value_details_tie (L : Str) (d : Detections) (a : Str)
    (h1 : d.token_address = some a) (h2 : d.details_token_address = some a)
    (h3 : valueScore L = detailsScore L) :
    (resolveValueDetails L d).token_address = some a ∧
    (resolveValueDetails L d).details_token_address = none := by
  unfold resolveValueDetails
  rw [if_pos ⟨by simp [h1], by simp [h2], by rw [h1, h2]⟩,
    if_neg (by omega), if_neg (by omega)]
  exact ⟨h1, rfl⟩

/-- Witness for C4: the scenario input has both matchers extract the same
address with tied scores, and the tie resolves to Token-Value. -/
theorem c4_value_details_tie_witness :
    detect_token_value_query
        (str "what is the value and details of token 0xaaaaaaaaaaaaaaaaaaaaaaaaaaaaaaaaaaaaaaaa") =
      .ok (some (str "0xaaaaaaaaaaaaaaaaaaaaaaaaaaaaaaaaaaaaaaaa"), some (str "ethereum")) ∧
    detect_token_details_query
        (str "what is the value and details of token 0xaaaaaaaaaaaaaaaaaaaaaaaaaaaaaaaaaaaaaaaa") =
      .ok (some (str "0xaaaaaaaaaaaaaaaaaaaaaaaaaaaaaaaaaaaaaaaa"), some (str "ethereum")) ∧
    valueScore (lowerStr
        (str "what is the value and details of token 0xaaaaaaaaaaaaaaaaaaaaaaaaaaaaaaaaaaaaaaaa")) =
      detailsScore (lowerStr
        (str "what is the value and details of token 0xaaaaaaaaaaaaaaaaaaaaaaaaaaaaaaaaaaaaaaaa")) ∧
    (resolveValueDetails (lowerStr
        (str "what is the value and details of token 0xaaaaaaaaaaaaaaaaaaaaaaaaaaaaaaaaaaaaaaaa"))
      { network := none, nft_wallet_address := none, nft_network := none,
        currency := none, spot_network := none,
        token_address := some (str "0xaaaaaaaaaaaaaaaaaaaaaaaaaaaaaaaaaaaaaaaa"),
        token_network := some (str "ethereum"),
        details_token_address := some (str "0xaaaaaaaaaaaaaaaaaaaaaaaaaaaaaaaaaaaaaaaa"),
        details_token_network := some (str "ethereum"),
        profitloss_token_address := none, profitloss_token_network := none,
        profitloss_timerange := none, tx_hash := none, block_number := none,
        tx_network := none, wallet_address := none,
        history_network := none }).token_address =
      some (str "0xaaaaaaaaaaaaaaaaaaaaaaaaaaaaaaaaaaaaaaaa") ∧
    (resolveValueDetails (lowerStr
        (str "what is the value and details of token 0xaaaaaaaaaaaaaaaaaaaaaaaaaaaaaaaaaaaaaaaa"))
      { network := none, nft_wallet_address := none, nft_network := none,
        currency := none, spot_network := none,
        token_address := some (str "0xaaaaaaaaaaaaaaaaaaaaaaaaaaaaaaaaaaaaaaaa"),
        token_network := some (str "ethereum"),
        details_token_address := some (str "0xaaaaaaaaaaaaaaaaaaaaaaaaaaaaaaaaaaaaaaaa"),
        details_token_network := some (str "ethereum"),
        profitloss_token_address := none, profitloss_token_network := none,
        profitloss_timerange := none, tx_hash := none, block_number := none,
        tx_network := none, wallet_address := none,
        history_network := none }).details_token_address = none :=
  ⟨by decide, by decide, by decide,
   (c4_value_details_tie _ _ (str "0xaaaaaaaaaaaaaaaaaaaaaaaaaaaaaaaaaaaaaaaa")
     rfl rfl (by decide)).1,
   (c4_value_details_tie _ _ (str "0xaaaaaaaaaaaaaaaaaaaaaaaaaaaaaaaaaaaaaaaa")
     rfl rfl (by decide)).2⟩

/-- Claim C1 counterexample: on this input the Token-Value and
Profit-Loss matchers extract the same address with EQUAL keyword scores,
and after disambiguation the Profit-Loss result is cleared and the
Token-Value result survives — the opposite of the claimed tie rule that
Profit-Loss wins ties. -/
theorem c1_counterexample :
    profitlossScore (lowerStr
      (str "profit and value of token 0xaaaaaaaaaaaaaaaaaaaaaaaaaaaaaaaaaaaaaaaa")) =
      valueScore (lowerStr
        (str "profit and value of token 0xaaaaaaaaaaaaaaaaaaaaaaaaaaaaaaaaaaaaaaaa")) ∧
    detect_token_value_query
        (str "profit and value of token 0xaaaaaaaaaaaaaaaaaaaaaaaaaaaaaaaaaaaaaaaa") =
      .ok (some (str "0xaaaaaaaaaaaaaaaaaaaaaaaaaaaaaaaaaaaaaaaa"), some (str "ethereum")) ∧
    detect_token_profitloss_query
        (str "profit and value of token 0xaaaaaaaaaaaaaaaaaaaaaaaaaaaaaaaaaaaaaaaa") =
      .ok (some (str "0xaaaaaaaaaaaaaaaaaaaaaaaaaaaaaaaaaaaaaaaa"), some (str "ethereum"),
        some (str "1day")) ∧
    (detectAndResolve
        (str "profit and value of token 0xaaaaaaaaaaaaaaaaaaaaaaaaaaaaaaaaaaaaaaaa")).map
      (fun d => (d.token_address, d.profitloss_token_address)) =
      .ok (some (str "0xaaaaaaaaaaaaaaaaaaaaaaaaaaaaaaaaaaaaaaaa"), none) :=
  ⟨by decide, by decide, by decide, by decide⟩

/-- Claim C1 amended: in the pairwise disambiguation of two matched
results sharing the same non-null subject, the side with the strictly
higher keyword score survives and the loser is cleared; on an exact tie
involving Profit-Loss, however, the OTHER side (Token-Value or
Token-Details) survives and the Profit-Loss result is cleared, because
only a strictly higher profit-loss score lets Profit-Loss win. -/
theorem c1_amended (L : Str) (d : Detections) (a : Str) :
    (d.token_address = some a → d.details_token_address = some a →
      detailsScore L > valueScore L →
      (resolveValueDetails L d).token_address = none ∧
      (resolveValueDetails L d).details_token_address = some a) ∧
    (d.token_address = some a → d.details_token_address = some a →
      valueScore L > detailsScore L →
      (resolveValueDetails L d).token_address = some a ∧
      (resolveValueDetails L d).details_token_address = none) ∧
    (d.profitloss_token_address = some a → d.token_address = some a →
      d.details_token_address ≠ some a →
      (profitlossScore L > valueScore L →
        (resolveProfitLoss L d).token_address = none ∧
        (resolveProfitLoss L d).profitloss_token_address = some a) ∧
      (valueScore L > profitlossScore L →
        (resolveProfitLoss L d).profitloss_token_address = none ∧
        (resolveProfitLoss L d).token_address = some a) ∧
      (profitlossScore L = valueScore L →
        (resolveProfitLoss L d).profitloss_token_address = none ∧
        (resolveProfitLoss L d).token_address = some a)) ∧
    (d.profitloss_token_address = some a → d.details_token_address = some a →
      d.token_address ≠ some a →
      (profitlossScore L > detailsScore L →
        (resolveProfitLoss L d).details_token_address = none ∧
        (resolveProfitLoss L d).profitloss_token_address = some a) ∧
      (detailsScore L > profitlossScore L →
        (resolveProfitLoss L d).profitloss_token_address = none ∧
        (resolveProfitLoss L d).details_token_address = some a) ∧
      (profitlossScore L = detailsScore L →
        (resolveProfitLoss L d).profitloss_token_address = none ∧
        (resolveProfitLoss L d).details_token_address = some a)) := by
  refine ⟨?_, ?_, ?_, ?_⟩
  · intro h1 h2 hgt
    unfold resolveValueDetails
    rw [if_pos ⟨by simp [h1], by simp [h2], by rw [h1, h2]⟩, if_pos hgt]
    exact ⟨rfl, h2⟩
  · intro h1 h2 hgt
    unfold resolveValueDetails
    rw [if_pos ⟨by simp [h1], by simp [h2], by rw [h1, h2]⟩,
      if_neg (by omega), if_pos hgt]
    exact ⟨h1, rfl⟩
  · intro hpl htok hdet
    unfold resolveProfitLoss
    rw [if_pos (by simp [hpl])]
    refine ⟨?_, ?_, ?_⟩
    · intro hgt
      rw [if_pos ⟨by simp [htok], by rw [htok, hpl]⟩, if_pos hgt]
      unfold resolvePLDetails
      rw [if_neg (by
        rintro ⟨hs, he⟩
        have he2 : d.details_token_address = d.profitloss_token_address := he
        rw [hpl] at he2
        exact hdet he2)]
      exact ⟨rfl, hpl⟩
    · intro hgt
      rw [if_pos ⟨by simp [htok], by rw [htok, hpl]⟩, if_neg (by omega)]
      unfold resolvePLDetails
      rw [if_neg (by
        rintro ⟨hs, he⟩
        have hs2 : d.details_token_address.isSome = true := hs
        have he2 : d.details_token_address = (none : Option Str) := he
        rw [he2] at hs2
        simp at hs2)]
      exact ⟨rfl, htok⟩
    · intro heq
      rw [if_pos ⟨by simp [htok], by rw [htok, hpl]⟩, if_neg (by omega)]
      unfold resolvePLDetails
      rw [if_neg (by
        rintro ⟨hs, he⟩
        have hs2 : d.details_token_address.isSome = true := hs
        have he2 : d.details_token_address = (none : Option Str) := he
        rw [he2] at hs2
        simp at hs2)]
      exact ⟨rfl, htok⟩
  · intro hpl hdet htok
    unfold resolveProfitLoss
    rw [if_pos (by simp [hpl])]
    have hskip : (if d.token_address.isSome ∧
        d.token_address = d.profitloss_token_address then
        if profitlossScore L > valueScore L then
          { d with token_address := none, token_network := none }
        else
          { d with profitloss_token_address := none,
                   profitloss_token_network := none, profitloss_timerange := none }
      else d) = d := by
      rw [if_neg]
      rintro ⟨hs, he⟩
      rw [hpl] at he
      exact htok he
    rw [hskip]
    refine ⟨?_, ?_, ?_⟩
    · intro hgt
      unfold resolvePLDetails
      rw [if_pos ⟨by simp [hdet], by rw [hdet, hpl]⟩, if_pos hgt]
      exact ⟨rfl, hpl⟩
    · intro hgt
      unfold resolvePLDetails
      rw [if_pos ⟨by simp [hdet], by rw [hdet, hpl]⟩, if_neg (by omega)]
      exact ⟨rfl, hdet⟩
    · intro heq
      unfold resolvePLDetails
      rw [if_pos ⟨by simp [hdet], by rw [hdet, hpl]⟩, if_neg (by omega)]
      exact ⟨rfl, hdet⟩

/-- Witness for C1 amended: the tie between Profit-Loss and Token-Value
at a concrete input clears Profit-Loss, and a strictly higher
Profit-Loss score clears the other side. -/
theorem c1_amended_witness :
    ((resolveProfitLoss (str "profit value") c1WitnessState).profitloss_token_address =
        none ∧
      (resolveProfitLoss (str "profit value") c1WitnessState).token_address =
        some (str "a")) ∧
    ((resolveProfitLoss (str "profit loss roi") c1WitnessState).token_address = none ∧
      (resolveProfitLoss (str "profit loss roi") c1WitnessState).profitloss_token_address =
        some (str "a")) :=
  ⟨((c1_amended (str "profit value") c1WitnessState (str "a")).2.2.1 rfl rfl
      (by decide)).2.2 (by decide),
   ((c1_amended (str "profit loss roi") c1WitnessState (str "a")).2.2.1 rfl rfl
      (by decide)).1 (by decide)⟩

/-- Claim C9 (confirmed): the 40-hex-char address pattern also matches
inside a 64-hex-char transaction hash.  For every 64-hex-char string h,
a text pairing the hash 0x-h with the profit keyword (for Profit-Loss)
or the log keyword (for Transaction-History) makes that matcher report
a match whose subject is the first 42 characters of the hash — a
truncated pseudo-address. -/
theorem c9_hash_prefix (h : Str) (hlen : h.length = 64)
    (hhex : h.all hexDigit = true) :
    findTxHash (str "profit for 0x" ++ h) = some (str "0x" ++ h) ∧
    detect_token_profitloss_query (str "profit for 0x" ++ h) =
      .ok (some ((str "0x" ++ h).take 42), some (str "ethereum"),
        some (str "1day")) ∧
    findTxHash (str "log for 0x" ++ h) = some (str "0x" ++ h) ∧
    detect_transaction_history_query (str "log for 0x" ++ h) =
      .ok (some ((str "0x" ++ h).take 42), some (str "ethereum")) := by
  have hchars : str "profit for 0x" =
      ['p', 'r', 'o', 'f', 'i', 't', ' ', 'f', 'o', 'r', ' ', '0', 'x'] := by decide
  have heq : str "profit for 0x" ++ h =
      'p' :: 'r' :: 'o' :: 'f' :: 'i' :: 't' :: ' ' :: 'f' :: 'o' :: 'r' :: ' ' ::
        '0' :: 'x' :: h := by
    rw [hchars]; rfl
  have hchars2 : str "log for 0x" =
      ['l', 'o', 'g', ' ', 'f', 'o', 'r', ' ', '0', 'x'] := by decide
  have heq2 : str "log for 0x" ++ h =
      'l' :: 'o' :: 'g' :: ' ' :: 'f' :: 'o' :: 'r' :: ' ' :: '0' :: 'x' :: h := by
    rw [hchars2]; rfl
  have hlen40 : 40 ≤ h.length := by omega
  have haddr : findAddress (str "profit for 0x" ++ h) =
      some ('0' :: 'x' :: h.take 40) := by
    rw [heq, findAddress_cons_of_ne _ (by decide), findAddress_cons_of_ne _ (by decide),
      findAddress_cons_of_ne _ (by decide), findAddress_cons_of_ne _ (by decide),
      findAddress_cons_of_ne _ (by decide), findAddress_cons_of_ne _ (by decide),
      findAddress_cons_of_ne _ (by decide), findAddress_cons_of_ne _ (by decide),
      findAddress_cons_of_ne _ (by decide), findAddress_cons_of_ne _ (by decide),
      findAddress_cons_of_ne _ (by decide)]
    exact findAddress_0x hlen40 hhex
  have haddr2 : findAddress (str "log for 0x" ++ h) =
      some ('0' :: 'x' :: h.take 40) := by
    rw [heq2, findAddress_cons_of_ne _ (by decide), findAddress_cons_of_ne _ (by decide),
      findAddress_cons_of_ne _ (by decide), findAddress_cons_of_ne _ (by decide),
      findAddress_cons_of_ne _ (by decide), findAddress_cons_of_ne _ (by decide),
      findAddress_cons_of_ne _ (by decide), findAddress_cons_of_ne _ (by decide)]
    exact findAddress_0x hlen40 hhex
  have hhash : findTxHash (str "profit for 0x" ++ h) = some ('0' :: 'x' :: h) := by
    rw [heq, findTxHash_cons_of_ne _ (by decide), findTxHash_cons_of_ne _ (by decide),
      findTxHash_cons_of_ne _ (by decide), findTxHash_cons_of_ne _ (by decide),
      findTxHash_cons_of_ne _ (by decide), findTxHash_cons_of_ne _ (by decide),
      findTxHash_cons_of_ne _ (by decide), findTxHash_cons_of_ne _ (by decide),
      findTxHash_cons_of_ne _ (by decide), findTxHash_cons_of_ne _ (by decide),
      findTxHash_cons_of_ne _ (by decide)]
    exact findTxHash_0x hlen hhex
  have hhash2 : findTxHash (str "log for 0x" ++ h) = some ('0' :: 'x' :: h) := by
    rw [heq2, findTxHash_cons_of_ne _ (by decide), findTxHash_cons_of_ne _ (by decide),
      findTxHash_cons_of_ne _ (by decide), findTxHash_cons_of_ne _ (by decide),
      findTxHash_cons_of_ne _ (by decide), findTxHash_cons_of_ne _ (by decide),
      findTxHash_cons_of_ne _ (by decide), findTxHash_cons_of_ne _ (by decide)]
    exact findTxHash_0x hlen hhex
  have hlow : lowerStr (str "profit for 0x" ++ h) =
      str "profit for 0x" ++ lowerStr h := by
    simp only [lowerStr, List.map_append]
    rw [show List.map Char.toLower (str "profit for 0x") = str "profit for 0x" by decide]
  have hlow2 : lowerStr (str "log for 0x" ++ h) = str "log for 0x" ++ lowerStr h := by
    simp only [lowerStr, List.map_append]
    rw [show List.map Char.toLower (str "log for 0x") = str "log for 0x" by decide]
  have hprof : containsSub (str "profit") (lowerStr (str "profit for 0x" ++ h)) = true := by
    rw [hlow]
    exact containsSub_append_of_prefixSub _ (by decide)
  have hlog : containsSub (str "log") (lowerStr (str "log for 0x" ++ h)) = true := by
    rw [hlow2]
    exact containsSub_append_of_prefixSub _ (by decide)
  have hkw : anyKeyword profitloss_keywords (lowerStr (str "profit for 0x" ++ h)) = true :=
    List.any_eq_true.mpr ⟨"profit", by decide, hprof⟩
  have hkw2 : anyKeyword history_keywords (lowerStr (str "log for 0x" ++ h)) = true :=
    List.any_eq_true.mpr ⟨"log", by decide, hlog⟩
  have hmiss1 : ∀ w ∈ (['h', 'm', 'n', 's', 'y', 'v', 'u'] : Str),
      w ∉ str "profit for 0x" ++ lowerStr h := by
    intro w hw hmem
    rcases List.mem_append.mp hmem with h1 | h2
    · exact (by decide : ∀ w2 ∈ (['h', 'm', 'n', 's', 'y', 'v', 'u'] : Str),
        w2 ∉ str "profit for 0x") w hw h1
    · exact not_mem_lowerStr_hex hhex
        ((by decide : ∀ w2 ∈ (['h', 'm', 'n', 's', 'y', 'v', 'u'] : Str),
          isLowerHex w2 = false) w hw) h2
  have hmiss2 : ∀ w ∈ (['h', 'm', 'n', 's', 'y', 'v', 'u'] : Str),
      w ∉ str "log for 0x" ++ lowerStr h := by
    intro w hw hmem
    rcases List.mem_append.mp hmem with h1 | h2
    · exact (by decide : ∀ w2 ∈ (['h', 'm', 'n', 's', 'y', 'v', 'u'] : Str),
        w2 ∉ str "log for 0x") w hw h1
    · exact not_mem_lowerStr_hex hhex
        ((by decide : ∀ w2 ∈ (['h', 'm', 'n', 's', 'y', 'v', 'u'] : Str),
          isLowerHex w2 = false) w hw) h2
  have hnet : findNetworkName (lowerStr (str "profit for 0x" ++ h)) = none := by
    rw [hlow]
    exact @findNetworkName_none (str "profit for 0x" ++ lowerStr h)
      (['h', 'm', 'n', 's', 'y', 'v', 'u']) (by decide) hmiss1
  have hnet2 : findNetworkName (lowerStr (str "log for 0x" ++ h)) = none := by
    rw [hlow2]
    exact @findNetworkName_none (str "log for 0x" ++ lowerStr h)
      (['h', 'm', 'n', 's', 'y', 'v', 'u']) (by decide) hmiss2
  have htr : findTimerange (lowerStr (str "profit for 0x" ++ h)) = none := by
    rw [hlow]
    refine findTimerange_none ?_ ?_
    · intro hmem
      rcases List.mem_append.mp hmem with h1 | h2
      · exact (by decide : 'y' ∉ str "profit for 0x") h1
      · exact not_mem_lowerStr_hex hhex (by decide) h2
    · intro hmem
      rcases List.mem_append.mp hmem with h1 | h2
      · exact (by decide : 'l' ∉ str "profit for 0x") h1
      · exact not_mem_lowerStr_hex hhex (by decide) h2
  refine ⟨hhash, ?_, hhash2, ?_⟩
  · have hres := pl_match haddr hkw
    rw [hnet, htr] at hres
    exact hres
  · have hres := hist_match haddr2 hkw2
    rw [hnet2] at hres
    exact hres

/-- Witness for C9 at the all-a hash. -/
theorem c9_hash_prefix_witness :
    findTxHash (str "profit for 0x" ++
        str "aaaaaaaaaaaaaaaaaaaaaaaaaaaaaaaaaaaaaaaaaaaaaaaaaaaaaaaaaaaaaaaa") =
      some (str "0x" ++
        str "aaaaaaaaaaaaaaaaaaaaaaaaaaaaaaaaaaaaaaaaaaaaaaaaaaaaaaaaaaaaaaaa") ∧
    detect_token_profitloss_query (str "profit for 0x" ++
        str "aaaaaaaaaaaaaaaaaaaaaaaaaaaaaaaaaaaaaaaaaaaaaaaaaaaaaaaaaaaaaaaa") =
      .ok (some ((str "0x" ++
          str "aaaaaaaaaaaaaaaaaaaaaaaaaaaaaaaaaaaaaaaaaaaaaaaaaaaaaaaaaaaaaaaa").take 42),
        some (str "ethereum"), some (str "1day")) ∧
    findTxHash (str "log for 0x" ++
        str "aaaaaaaaaaaaaaaaaaaaaaaaaaaaaaaaaaaaaaaaaaaaaaaaaaaaaaaaaaaaaaaa") =
      some (str "0x" ++
        str "aaaaaaaaaaaaaaaaaaaaaaaaaaaaaaaaaaaaaaaaaaaaaaaaaaaaaaaaaaaaaaaa") ∧
    detect_transaction_history_query (str "log for 0x" ++
        str "aaaaaaaaaaaaaaaaaaaaaaaaaaaaaaaaaaaaaaaaaaaaaaaaaaaaaaaaaaaaaaaa") =
      .ok (some ((str "0x" ++
          str "aaaaaaaaaaaaaaaaaaaaaaaaaaaaaaaaaaaaaaaaaaaaaaaaaaaaaaaaaaaaaaaa").take 42),
        some (str "ethereum")) :=
  c9_hash_prefix
    (str "aaaaaaaaaaaaaaaaaaaaaaaaaaaaaaaaaaaaaaaaaaaaaaaaaaaaaaaaaaaaaaaa")
    (by decide) (by decide)

/-- Claim C7 (confirmed): for every input string, each of the eight
matchers and the disambiguation pipeline return normally with an ok
value — absence of a match is signalled by none fields, and the error
constructor (a raised Python exception) is never produced. -/
theorem c7_no_exception (t : Str) :
    (∃ v, detect_gas_price_query t = .ok v) ∧
    (∃ v, detect_nft_holdings_query t = .ok v) ∧
    (∃ v, detect_spot_price_query t = .ok v) ∧
    (∃ v, detect_token_value_query t = .ok v) ∧
    (∃ v, detect_token_details_query t = .ok v) ∧
    (∃ v, detect_token_profitloss_query t = .ok v) ∧
    (∃ v, detect_transaction_trace_query t = .ok v) ∧
    (∃ v, detect_transaction_history_query t = .ok v) ∧
    (∃ d, detectAndResolve t = .ok d) :=
  ⟨gas_ok t, nft_ok t, spot_ok t, tv_ok t, td_ok t, pl_ok t, trace_ok t,
   hist_ok t, detectAndResolve_ok t⟩

end Franky
